import Mathlib

/-!
Verification of the DataFetching repository's fetch/filter/display core.

The source under scrutiny:
- `src/components/PostsList.tsx` : `fetchProducts`, `handleSearch`, `renderProduct`
  (discounted price and average rating derivations).
- `src/unnamed/part_000` (the app shell variant) : `fetchPosts` with its
  `products.slice(0, 30)` truncation.

Strings are embedded as lists of characters.  JavaScript's `toLowerCase` agrees
with `Char.toLower` on ASCII, and `a.includes(b)` is substring containment.
Numbers are embedded as rationals; the one place JavaScript number semantics
diverges from exact arithmetic in a way a claim depends on — division by zero
producing `NaN` in the average-rating derivation — is modelled explicitly with
an `Option` codomain (`none` = `NaN`).
-/

abbrev Str := List Char

/-- JavaScript `s.toLowerCase()` on an ASCII string (`Char.toLower` lowers
exactly the ASCII upper-case letters, as JS does on that range). -/
def lowerStr (s : Str) : Str := s.map Char.toLower

/-- JavaScript `hay.includes(needle)` : `needle` occurs contiguously in `hay`.
`"".includes(x)` is true exactly when `x` is empty; otherwise a needle is a
prefix of some suffix of the haystack. -/
def strIncludes : Str → Str → Bool
  | [], needle => needle.isEmpty
  | hay@(_ :: t), needle => needle.isPrefixOf hay || strIncludes t needle

/-- Modelled from the spec: the `Product` type lives in `src/types/types.ts`,
which is not part of the provided sources.  Spec §3 and §6 list its fields; the
fields below are the ones the verified derivations read
(`title`, `price`, `discountPercentage`, `reviews`).  A review is represented
by its numeric rating (spec §6 : `reviews` is an array of `{rating: number}`);
purely presentational fields (brand, category, description, stock, warranty,
shipping, image) are omitted as no claim mentions them. -/
structure Product where
  id : Nat
  title : Str
  price : ℚ
  discountPercentage : ℚ
  reviews : Option (List ℚ)
deriving DecidableEq, Repr

/-- A raw (unvalidated) item as it arrives from JSON, where the `title` field
may be absent (`none`), matching the situation claim C2 speaks about. -/
structure RawProduct where
  title : Option Str
deriving DecidableEq, Repr

/-- `PostsList.tsx` lines 42–49, the body of `handleSearch` as a pure filter:
empty query returns the products unchanged; otherwise keeps the products whose
lowercased title contains the lowercased query. -/
def filterByTitle (products : List Product) (text : Str) : List Product :=
  if text = [] then products
  else products.filter (fun product =>
    strIncludes (lowerStr product.title) (lowerStr text))

/-- The same filter evaluated over raw JSON items, with JavaScript's actual
behaviour on a missing `title` : `product.title.toLowerCase()` throws a
`TypeError` when `title` is `undefined`, aborting the whole `Array.filter`
pass.  `Except.error ()` models the thrown `TypeError`. -/
def filterByTitleRaw (products : List RawProduct) (text : Str) :
    Except Unit (List RawProduct) :=
  if text = [] then Except.ok products
  else go products (lowerStr text)
where
  go : List RawProduct → Str → Except Unit (List RawProduct)
    | [], _ => Except.ok []
    | p :: ps, loweredText =>
      match p.title with
      | none => Except.error ()
      | some t =>
        match go ps loweredText with
        | Except.error e => Except.error e
        | Except.ok rest =>
          Except.ok (if strIncludes (lowerStr t) loweredText then p :: rest else rest)

/-- `PostsList.tsx` line 54 :
`item.price - (item.price * (item.discountPercentage / 100))`. -/
def discountedPrice (price discountPercentage : ℚ) : ℚ :=
  price - price * (discountPercentage / 100)

/-- `PostsList.tsx` line 55 :
`item.reviews ? item.reviews.reduce((acc, review) => acc + review.rating, 0) / item.reviews.length : 0`.
In JavaScript an empty array is truthy, so a present-but-empty `reviews` takes
the first branch and evaluates `0 / 0 = NaN`; `none` in the codomain stands for
that `NaN`.  An absent `reviews` field takes the second branch and yields `0`. -/
def averageRating (reviews : Option (List ℚ)) : Option ℚ :=
  match reviews with
  | none => some 0
  | some rs =>
    if rs.length = 0 then none
    else some (rs.foldl (· + ·) 0 / (rs.length : ℚ))

/-- `src/unnamed/part_000` lines 42–43 : `setPosts(products.slice(0, 30))` —
the list written to the store by `fetchPosts` on success. -/
def fetchPostsStore (items : List Product) : List Product := items.take 30

/-- `PostsList.tsx` lines 21–23 : `setProducts(data.products)` — the list
written to the store by `fetchProducts` on success, with no truncation. -/
def fetchProductsStore (items : List Product) : List Product := items

/-- Outcome of one round-trip to the catalog endpoint, as seen by the
try/catch in either fetch function: a parsed JSON body whose `products` field
is present (`ok (some items)`) or absent (`ok none`), or a thrown transport /
parse error (`netError`). -/
inductive FetchOutcome
  | ok (body : Option (List Product))
  | netError
deriving DecidableEq, Repr

/-- A fetch invocation that fails: transport error, or response body lacking
the `products` collection. -/
def FetchOutcome.failed : FetchOutcome → Bool
  | ok (some _) => false
  | ok none => true
  | netError => true

def noProductsMsg : Str := "No products found.".data
def failedLoadMsg : Str := "Failed to load products.".data
def fetchFailMsg : Str := "Failed to fetch products. Please try again.".data

/-- Component state of `PostsList.tsx` : the context `products` store plus the
local `filteredProducts`, `searchTerm`, `loading` and `error` hooks. -/
structure PostsListState where
  products : List Product
  filteredProducts : List Product
  searchTerm : Str
  loading : Bool
  error : Option Str
deriving DecidableEq, Repr

/-- `PostsList.tsx` lines 14–34, `fetchProducts` : on a body with a `products`
field, store it in context and in `filteredProducts` and stop loading; on a
body without one, set the "No products found." error; on a thrown error, set
the "Failed to load products." error.  The store is only written on success. -/
def fetchProducts (s : PostsListState) (r : FetchOutcome) : PostsListState :=
  match r with
  | FetchOutcome.ok (some items) =>
    { s with products := items, filteredProducts := items, loading := false }
  | FetchOutcome.ok none =>
    { s with error := some noProductsMsg, loading := false }
  | FetchOutcome.netError =>
    { s with error := some failedLoadMsg, loading := false }

/-- `PostsList.tsx` lines 40–50, `handleSearch` : record the new search term
and recompute `filteredProducts` from the context `products` and the new text
(never from the previous `filteredProducts`). -/
def handleSearch (s : PostsListState) (text : Str) : PostsListState :=
  { s with searchTerm := text, filteredProducts := filterByTitle s.products text }

/-- Component state of the app shell in `src/unnamed/part_000` : the context
`posts` store plus local `loading` and `error`. -/
structure AppState where
  posts : List Product
  loading : Bool
  error : Option Str
deriving DecidableEq, Repr

/-- `src/unnamed/part_000` lines 36–50, `fetchPosts` : clear the error and
enter loading; on a body with a `products` field store its first 30 entries;
on a body without one, `undefined.slice` throws, so the catch block sets the
error message, leaving the store untouched; a transport error does the same;
the `finally` clears `loading` in every case. -/
def fetchPosts (s : AppState) (r : FetchOutcome) : AppState :=
  let s1 : AppState := { s with loading := true, error := none }
  match r with
  | FetchOutcome.ok (some items) =>
    { s1 with posts := items.take 30, loading := false }
  | FetchOutcome.ok none =>
    { s1 with error := some fetchFailMsg, loading := false }
  | FetchOutcome.netError =>
    { s1 with error := some fetchFailMsg, loading := false }

/- Sample items used by witnesses, titled as in the spec §8 scenario. -/

def iphone : Product :=
  { id := 1, title := "iPhone 9".data, price := 549, discountPercentage := 13,
    reviews := none }

def galaxy : Product :=
  { id := 2, title := "Samsung Galaxy".data, price := 1249, discountPercentage := 18,
    reviews := some [4, 5] }

def huawei : Product :=
  { id := 3, title := "Huawei Phone".data, price := 499, discountPercentage := 11,
    reviews := some [] }

def phoneQ : Str := "phone".data

/-- Initial state of `PostsList` : empty store, loading, no error. -/
def initState : PostsListState :=
  { products := [], filteredProducts := [], searchTerm := [], loading := true,
    error := none }

/-- Initial state of the app shell : empty store, not loading, no error. -/
def appInit : AppState := { posts := [], loading := false, error := none }

/-- A raw JSON item whose `title` field is absent. -/
def missingTitleItem : RawProduct := { title := none }

/-- A raw JSON item whose `title` field is present. -/
def titledItem : RawProduct := { title := some "ab".data }

/-- Two component states sharing the same store but differing in their local
search term and previously displayed filtered list. -/
def stateA : PostsListState :=
  { products := [iphone, galaxy, huawei], filteredProducts := [iphone, huawei],
    searchTerm := phoneQ, loading := false, error := none }

def stateB : PostsListState :=
  { products := [iphone, galaxy, huawei], filteredProducts := [galaxy],
    searchTerm := "galaxy".data, loading := false, error := none }

example : filterByTitle [iphone, galaxy, huawei] phoneQ = [iphone, huawei] := by decide

example : averageRating (some [4, 5]) = some (9 / 2) := by
  norm_num [averageRating, List.foldl]

example : averageRating (some []) = none := by norm_num [averageRating]

example : discountedPrice 100 25 = 75 := by norm_num [discountedPrice]

/-! ## Helper lemmas -/

/-- The empty needle is contained in every haystack
(JavaScript : `hay.includes("")` is always true). -/
theorem strIncludes_nil_right (hay : Str) : strIncludes hay [] = true := by
  cases hay <;> rfl

/-- `Array.reduce` with `+` starting from an accumulator computes the
accumulator plus the list sum. -/
theorem foldl_add_eq_sum (rs : List ℚ) (a : ℚ) :
    rs.foldl (· + ·) a = a + rs.sum := by
  induction rs generalizing a with
  | nil => simp
  | cons r t ih => simp [List.foldl_cons, ih, List.sum_cons]; ring

/-- If every raw item has a title, the raw filter pass completes. -/
theorem filterRaw_go_ok (t : Str) (L : List RawProduct)
    (h : ∀ p ∈ L, p.title ≠ none) :
    ∃ r, filterByTitleRaw.go L t = Except.ok r := by
  induction L with
  | nil => exact ⟨[], rfl⟩
  | cons p ps ih =>
    cases hp : p.title with
    | none => exact absurd hp (h p (List.mem_cons_self p ps))
    | some s =>
      obtain ⟨r, hr⟩ := ih (fun q hq => h q (List.mem_cons_of_mem p hq))
      exact ⟨if strIncludes (lowerStr s) t then p :: r else r,
        by simp [filterByTitleRaw.go, hp, hr]⟩

/-- If some raw item lacks a title, the raw filter pass throws. -/
theorem filterRaw_go_err (t : Str) (L : List RawProduct)
    (h : ∃ p ∈ L, p.title = none) :
    filterByTitleRaw.go L t = Except.error () := by
  induction L with
  | nil => simp at h
  | cons p ps ih =>
    obtain ⟨q, hq, hqt⟩ := h
    cases List.mem_cons.mp hq with
    | inl heq =>
      subst heq
      simp [filterByTitleRaw.go, hqt]
    | inr hmem =>
      cases hp : p.title with
      | none => simp [filterByTitleRaw.go, hp]
      | some s =>
        have herr := ih ⟨q, hmem, hqt⟩
        simp [filterByTitleRaw.go, hp, herr]

/-! ## Claims -/

/-- C1 : every failed fetch invocation — transport error or response body
without the item collection — leaves the stored product list unchanged (in
both `fetchProducts` of `PostsList.tsx` and `fetchPosts` of the app shell) and
sets the user-facing error message to a non-null string. -/
theorem fetch_failure_preserves_store_and_sets_error
    (s : PostsListState) (t : AppState) (r : FetchOutcome)
    (h : r.failed = true) :
    (fetchProducts s r).products = s.products
    ∧ (fetchProducts s r).error.isSome = true
    ∧ (fetchPosts t r).posts = t.posts
    ∧ (fetchPosts t r).error.isSome = true := by
  cases r with
  | ok body =>
    cases body with
    | some items => simp [FetchOutcome.failed] at h
    | none => simp [fetchProducts, fetchPosts]
  | netError => simp [fetchProducts, fetchPosts]

/-- C1 witness : a transport error hitting the initial (empty-store) states. -/
theorem fetch_failure_preserves_store_and_sets_error_witness :
    FetchOutcome.netError.failed = true
    ∧ ((fetchProducts initState FetchOutcome.netError).products = initState.products
      ∧ (fetchProducts initState FetchOutcome.netError).error.isSome = true
      ∧ (fetchPosts appInit FetchOutcome.netError).posts = appInit.posts
      ∧ (fetchPosts appInit FetchOutcome.netError).error.isSome = true) :=
  ⟨rfl, fetch_failure_preserves_store_and_sets_error initState appInit
    FetchOutcome.netError rfl⟩

/-- C2 counterexample : on an item whose title field is absent and a non-empty
query, the filter pass throws (`product.title.toLowerCase()` on `undefined`)
instead of completing with the item excluded, refuting the claim that the
filter is total and treats a missing display name as the empty string. -/
theorem filterRaw_fails_on_missing_title :
    filterByTitleRaw [missingTitleItem] ['a'] = Except.error ()
    ∧ filterByTitleRaw [missingTitleItem] ['a'] ≠ Except.ok [] := by
  have h1 : filterByTitleRaw [missingTitleItem] ['a'] = Except.error () := rfl
  exact ⟨h1, by rw [h1]; intro h; exact Except.noConfusion h⟩

/-- C2 amended : the filter pass is total on lists in which every item carries
a display-name string; when some item's title field is absent and the query is
non-empty, the whole pass fails with a thrown error rather than excluding the
item. -/
theorem filterRaw_total_iff_title_present (L : List RawProduct) (q : Str) :
    ((∀ p ∈ L, p.title ≠ none) → ∃ r, filterByTitleRaw L q = Except.ok r)
    ∧ (q ≠ [] → (∃ p ∈ L, p.title = none) →
        filterByTitleRaw L q = Except.error ()) := by
  constructor
  · intro h
    by_cases hq : q = []
    · exact ⟨L, by simp [filterByTitleRaw, hq]⟩
    · obtain ⟨r, hr⟩ := filterRaw_go_ok (lowerStr q) L h
      exact ⟨r, by simp [filterByTitleRaw, hq, hr]⟩
  · intro hq h
    simp only [filterByTitleRaw, if_neg hq]
    exact filterRaw_go_err (lowerStr q) L h

/-- C2 amended witness : a one-item list with a present title filters
successfully. -/
theorem filterRaw_total_iff_title_present_witness :
    (∀ p ∈ [titledItem], p.title ≠ none)
    ∧ ∃ r, filterByTitleRaw [titledItem] ['a'] = Except.ok r :=
  ⟨by decide, (filterRaw_total_iff_title_present [titledItem] ['a']).1 (by decide)⟩

/-- C3 counterexample : an item whose reviews collection is present but empty
derives `NaN` (`[]` is truthy in JavaScript, so the code evaluates `0 / 0`),
not the `0` the claim requires. -/
theorem averageRating_empty_reviews_not_zero :
    averageRating (some []) = none ∧ averageRating (some []) ≠ some 0 := by
  refine ⟨rfl, ?_⟩
  intro h
  rw [show averageRating (some []) = (none : Option ℚ) from rfl] at h
  exact Option.noConfusion h

/-- C3 amended : the derived average rating equals the arithmetic mean of the
review ratings when reviews are present and non-empty, equals `0` when the
reviews field is absent, and is `NaN` (not `0`) when the reviews collection is
present but empty. -/
theorem averageRating_spec (rs : List ℚ) (h : rs ≠ []) :
    averageRating (some rs) = some (rs.sum / rs.length)
    ∧ averageRating none = some 0
    ∧ averageRating (some []) = none := by
  refine ⟨?_, rfl, rfl⟩
  have hlen : rs.length ≠ 0 := by simpa using h
  simp [averageRating, hlen, foldl_add_eq_sum, zero_add]

/-- C3 amended witness : the spec's `[4, 5]` example averages to `4.5`. -/
theorem averageRating_spec_witness :
    ([(4:ℚ), 5] ≠ []) ∧ averageRating (some [4, 5]) = some (9 / 2) := by
  have h := (averageRating_spec [4, 5] (by simp)).1
  refine ⟨by simp, ?_⟩
  rw [h]
  norm_num

/-- C4 : for price ≥ 0 and discount percentage in `[0, 100]`, the derived
discounted price equals `price × (1 − discountPercentage / 100)`, is ≥ 0, and
the spec's example `price = 100`, `discountPercentage = 25` yields `75`. -/
theorem discountedPrice_spec (p d : ℚ)
    (hp : 0 ≤ p) (hd0 : 0 ≤ d) (hd1 : d ≤ 100) :
    discountedPrice p d = p * (1 - d / 100)
    ∧ 0 ≤ discountedPrice p d
    ∧ discountedPrice 100 25 = 75 := by
  have heq : discountedPrice p d = p * (1 - d / 100) := by
    unfold discountedPrice; ring
  refine ⟨heq, ?_, by norm_num [discountedPrice]⟩
  rw [heq]
  have hfac : (0:ℚ) ≤ 1 - d / 100 := by linarith
  exact mul_nonneg hp hfac

/-- C4 witness : the spec's example item. -/
theorem discountedPrice_spec_witness :
    (0 ≤ (100:ℚ)) ∧ (0 ≤ (25:ℚ)) ∧ ((25:ℚ) ≤ 100)
    ∧ (discountedPrice 100 25 = 100 * (1 - 25 / 100)
      ∧ 0 ≤ discountedPrice 100 25 ∧ discountedPrice 100 25 = 75) :=
  ⟨by norm_num, by norm_num, by norm_num,
    discountedPrice_spec 100 25 (by norm_num) (by norm_num) (by norm_num)⟩

/-- C5 : every item the filter keeps has a lowercased title containing the
lowercased query; conversely, for a non-empty query, every stored item whose
lowercased title contains the lowercased query is kept. -/
theorem filter_sound_and_complete (L : List Product) (q : Str) :
    (∀ p ∈ filterByTitle L q, strIncludes (lowerStr p.title) (lowerStr q) = true)
    ∧ (q ≠ [] → ∀ p ∈ L, strIncludes (lowerStr p.title) (lowerStr q) = true →
        p ∈ filterByTitle L q) := by
  by_cases hq : q = []
  · subst hq
    refine ⟨?_, fun h => absurd rfl h⟩
    intro p _
    exact strIncludes_nil_right (lowerStr p.title)
  · refine ⟨?_, ?_⟩
    · intro p hp
      simp only [filterByTitle, if_neg hq] at hp
      exact (List.mem_filter.mp hp).2
    · intro _ p hp hinc
      simp only [filterByTitle, if_neg hq]
      exact List.mem_filter.mpr ⟨hp, hinc⟩

/-- C5 witness : the spec's "phone" scenario — "Huawei Phone" matches and is
kept. -/
theorem filter_sound_and_complete_witness :
    (phoneQ ≠ []) ∧ huawei ∈ [iphone, galaxy, huawei]
    ∧ strIncludes (lowerStr huawei.title) (lowerStr phoneQ) = true
    ∧ huawei ∈ filterByTitle [iphone, galaxy, huawei] phoneQ :=
  ⟨by decide, by decide, by decide,
    (filter_sound_and_complete [iphone, galaxy, huawei] phoneQ).2 (by decide)
      huawei (by decide) (by decide)⟩

/-- C6 : the filtered list is a sublist of the stored list — every kept item
occurs in the store and relative order is preserved. -/
theorem filter_is_sublist (L : List Product) (q : Str) :
    (filterByTitle L q).Sublist L := by
  unfold filterByTitle
  split
  · exact List.Sublist.refl L
  · exact List.filter_sublist L

/-- C7 : the empty query is an identity for the filter. -/
theorem filter_empty_query_identity (L : List Product) :
    filterByTitle L [] = L := by
  simp [filterByTitle]

/-- C8 : filtering twice with the same query equals filtering once. -/
theorem filter_idempotent (L : List Product) (q : Str) :
    filterByTitle (filterByTitle L q) q = filterByTitle L q := by
  by_cases hq : q = []
  · simp [filterByTitle, hq]
  · simp only [filterByTitle, if_neg hq]
    refine List.filter_eq_self.mpr ?_
    intro a ha
    exact (List.mem_filter.mp ha).2

/-- C9 counterexample : `fetchProducts` in `PostsList.tsx` writes the fetched
collection to the store untruncated, so a 31-item response leaves 31 items in
the store, not the `min(31, 30) = 30` the claim requires of every successful
fetch. -/
theorem fetchProducts_no_truncation :
    (fetchProductsStore (List.replicate 31 iphone)).length ≠
      min (List.replicate 31 iphone).length 30 := by
  norm_num [fetchProductsStore, List.length_replicate]

/-- C9 amended : `fetchPosts` (app shell) truncates to the first 30 entries,
storing exactly `min(n, 30)` items in response order, while `fetchProducts`
(`PostsList.tsx`) stores the full collection untruncated; a 30-item response
leaves exactly 30 items in the store under either, all visible under the empty
query. -/
theorem store_truncation_spec (items : List Product) :
    fetchPostsStore items = items.take 30
    ∧ (fetchPostsStore items).length = min items.length 30
    ∧ fetchProductsStore items = items
    ∧ filterByTitle (fetchPostsStore items) [] = fetchPostsStore items
    ∧ filterByTitle (fetchProductsStore items) [] = items
    ∧ (items.length = 30 → (fetchPostsStore items).length = 30) := by
  refine ⟨rfl, ?_, rfl, ?_, ?_, ?_⟩
  · simp [fetchPostsStore, List.length_take, Nat.min_comm]
  · simp [filterByTitle]
  · simp [filterByTitle, fetchProductsStore]
  · intro h
    simp [fetchPostsStore, List.length_take, h]

/-- C9 amended witness : a concrete 30-item response fills the store with
exactly 30 items. -/
theorem store_truncation_spec_witness :
    ((List.replicate 30 iphone).length = 30)
    ∧ (fetchPostsStore (List.replicate 30 iphone)).length = 30 := by
  have h : (List.replicate 30 iphone).length = 30 := by simp
  exact ⟨h, (store_truncation_spec (List.replicate 30 iphone)).2.2.2.2.2 h⟩

/-- C10 : the filtered list `handleSearch` derives depends only on the store
contents and the newly entered query — two states with equal stores derive
equal filtered lists regardless of their previous query or previously
displayed list — and broadening back to the empty query restores the full
store. -/
theorem handleSearch_depends_only_on_store
    (s1 s2 : PostsListState) (t q : Str) (h : s1.products = s2.products) :
    (handleSearch s1 t).filteredProducts = (handleSearch s2 t).filteredProducts
    ∧ (handleSearch (handleSearch s1 q) []).filteredProducts = s1.products := by
  constructor
  · simp [handleSearch, h]
  · simp [handleSearch, filterByTitle]

/-- C10 witness : two states sharing a store but holding different previous
queries and displayed lists derive the same visible list, and clearing the
query after narrowing restores the full store. -/
theorem handleSearch_depends_only_on_store_witness :
    stateA.products = stateB.products
    ∧ ((handleSearch stateA ['s']).filteredProducts
        = (handleSearch stateB ['s']).filteredProducts
      ∧ (handleSearch (handleSearch stateA phoneQ) []).filteredProducts
        = stateA.products) :=
  ⟨rfl, handleSearch_depends_only_on_store stateA stateB ['s'] phoneQ rfl⟩
